import Mathlib

/-!
Verification of the NDVI reduction core of the Vegitation-Detector backend.

The reducer appears twice in the source, with identical numeric logic:
once inline in the `/api/ndvi` route handler (`router.get` in
`src/routes/ndvi.js`), and once as `calculateNdvi` in the GeoTIFF service
module.  Both loop over
`for (let i = 0; i < Math.min(redRaster.length, maxPixels); i++)`,
push `(nir - red) / (nir + red)` when the denominator is nonzero
(else push `0`), accumulate `sum` and `count` over the nonzero-denominator
pixels, and return `{ meanNdvi: (sum / count).toFixed(4), sample: ndvi.slice(0, 100), ... }`.

Numbers are modelled as exact rationals extended with a NaN element:
an out-of-bounds read of a raster (`nirRaster[i]` when `i >= nirRaster.length`)
yields `undefined` in JavaScript, which behaves as NaN under every arithmetic
operation the reducer applies to it, and NaN propagates through `+`, `-`, `/`
and compares `!== 0` as true.
-/

/-- A JavaScript number as used by the reducer: an exact rational, or NaN.
`nan` also stands for the `undefined` produced by an out-of-bounds
raster read, since the reducer only ever combines that value arithmetically. -/
inductive JsNum where
  | num (q : ℚ)
  | nan
deriving DecidableEq, Repr

/-- JavaScript `+` on reducer values: NaN propagates. -/
def JsNum.add : JsNum → JsNum → JsNum
  | JsNum.num a, JsNum.num b => JsNum.num (a + b)
  | _, _ => JsNum.nan

/-- JavaScript `-` on reducer values: NaN propagates. -/
def JsNum.sub : JsNum → JsNum → JsNum
  | JsNum.num a, JsNum.num b => JsNum.num (a - b)
  | _, _ => JsNum.nan

/-- JavaScript `/` on reducer values: NaN propagates, and `0 / 0` is NaN.
(For `a / 0` with `a ≠ 0` JavaScript yields ±Infinity; that case is
unreachable in this program because every division is guarded by a
`!== 0` test on the denominator, and a NaN denominator forces a NaN
numerator here.) -/
def JsNum.div : JsNum → JsNum → JsNum
  | JsNum.num a, JsNum.num b => if b = 0 then JsNum.nan else JsNum.num (a / b)
  | _, _ => JsNum.nan

/-- The JavaScript test `x !== 0`: true for NaN, and for any nonzero rational. -/
def JsNum.strictNeqZero : JsNum → Bool
  | JsNum.num q => decide (q ≠ 0)
  | JsNum.nan => true

/-- Indexing a raster band, JavaScript style: `raster[i]` is the stored
number when `i` is in bounds, and otherwise `undefined`, which the
reducer immediately feeds into arithmetic where it behaves as NaN. -/
def bandGet (xs : List ℚ) (i : Nat) : JsNum :=
  match xs[i]? with
  | some q => JsNum.num q
  | none => JsNum.nan

/-- `const maxPixels = 1000000;` — the fixed pixel cap of both reducers. -/
def maxPixels : Nat := 1000000

/-- The mutable state of the reduction loop: the per-pixel output array
`ndvi`, the running `sum`, and the valid-pixel `count`. -/
structure LoopState where
  ndvi : List JsNum
  sum : JsNum
  count : Nat
deriving DecidableEq, Repr

/-- One iteration of the reducer loop body (`src/services` `calculateNdvi`):
read `red = redRaster[i]`, `nir = nirRaster[i]`; if `nir + red !== 0`
push `(nir - red) / (nir + red)`, add it to the sum and bump the count,
else push `0`. -/
def ndviStep (red nir : List ℚ) (s : LoopState) (i : Nat) : LoopState :=
  let r := bandGet red i
  let nv := bandGet nir i
  if (JsNum.add nv r).strictNeqZero then
    let val := JsNum.div (JsNum.sub nv r) (JsNum.add nv r)
    ⟨s.ndvi ++ [val], s.sum.add val, s.count + 1⟩
  else
    ⟨s.ndvi ++ [JsNum.num 0], s.sum, s.count⟩

/-- The reducer loop after `j` iterations, starting from
`const ndvi = []; let sum = 0, count = 0;`. -/
def ndviIter (red nir : List ℚ) : Nat → LoopState
  | 0 => ⟨[], JsNum.num 0, 0⟩
  | Nat.succ i => ndviStep red nir (ndviIter red nir i) i

/-- The full reducer loop: `for (let i = 0; i < Math.min(redRaster.length, maxPixels); i++)`.
Note the bound uses only the red raster's length. -/
def ndviLoop (red nir : List ℚ) : LoopState :=
  ndviIter red nir (min red.length maxPixels)

/-- Left-pad the decimal digits of `m` with zeros to width 4
(the fractional part of a `toFixed(4)` rendering; `m < 10000` at every use). -/
def pad4 (m : Nat) : String :=
  if m < 10 then "000" ++ toString m
  else if m < 100 then "00" ++ toString m
  else if m < 1000 then "0" ++ toString m
  else toString m

/-- `Number.prototype.toFixed(4)` per ECMA-262 on a reducer value:
`"NaN"` for NaN; otherwise extract the sign, pick the integer `n`
with `n / 10^4` closest to `|q|` (ties to the larger `n`), and render
`n` with a decimal point four digits from the right. -/
def JsNum.toFixed4 : JsNum → String
  | JsNum.nan => "NaN"
  | JsNum.num q =>
    let sign := if q < 0 then "-" else ""
    let n : Nat := (Int.floor (|q| * 10000 + 1/2)).toNat
    sign ++ toString (n / 10000) ++ "." ++ pad4 (n % 10000)

/-- The reducer's output contract: the formatted mean and the bounded sample.
(`width`/`height` come from raster metadata, outside the reduction.) -/
structure NdviResult where
  meanNdvi : String
  sample : List JsNum
deriving DecidableEq, Repr

/-- The service-module reducer `calculateNdvi` (numeric core): run the loop,
format `meanNdvi = (sum / count).toFixed(4)` and take `sample = ndvi.slice(0, 100)`. -/
def calculateNdvi (red nir : List ℚ) : NdviResult :=
  let st := ndviLoop red nir
  ⟨(st.sum.div (JsNum.num (st.count : ℚ))).toFixed4, st.ndvi.take 100⟩

/-- One iteration of the copy of the loop body inline in the
`/api/ndvi` route handler (`src/routes/ndvi.js`, `router.get`). -/
def routeNdviStep (red nir : List ℚ) (s : LoopState) (i : Nat) : LoopState :=
  let r := bandGet red i
  let nv := bandGet nir i
  if (JsNum.add nv r).strictNeqZero then
    let val := JsNum.div (JsNum.sub nv r) (JsNum.add nv r)
    ⟨s.ndvi ++ [val], s.sum.add val, s.count + 1⟩
  else
    ⟨s.ndvi ++ [JsNum.num 0], s.sum, s.count⟩

/-- The route handler's copy of the loop after `j` iterations. -/
def routeNdviIter (red nir : List ℚ) : Nat → LoopState
  | 0 => ⟨[], JsNum.num 0, 0⟩
  | Nat.succ i => routeNdviStep red nir (routeNdviIter red nir i) i

/-- The route handler's full loop, same bound
`Math.min(redRaster.length, maxPixels)`. -/
def routeNdviLoop (red nir : List ℚ) : LoopState :=
  routeNdviIter red nir (min red.length maxPixels)

/-- An HTTP response of the `/api/ndvi` route: status code and the
reducer-derived body fields. -/
structure RouteResponse where
  status : Nat
  meanNdvi : String
  sample : List JsNum
deriving DecidableEq, Repr

/-- The success path of the route handler on in-memory bands: the
computation never throws, so `res.json({ meanNdvi, sample, ... })`
replies with status 200. (The `catch` branch fires only on upstream
storage or decode failures, which happen before these bands exist.) -/
def routeHandler (red nir : List ℚ) : RouteResponse :=
  let st := routeNdviLoop red nir
  ⟨200, (st.sum.div (JsNum.num (st.count : ℚ))).toFixed4, st.ndvi.take 100⟩

/-- Negation on reducer values, the shape in which band-swapping acts
pixelwise; NaN is its own negation. -/
def negJs : JsNum → JsNum
  | JsNum.num q => JsNum.num (-q)
  | JsNum.nan => JsNum.nan

lemma bandGet_eq_num {xs : List ℚ} {i : Nat} {q : ℚ} (h : xs[i]? = some q) :
    bandGet xs i = JsNum.num q := by
  simp [bandGet, h]

lemma ndviStep_ndvi_length (red nir : List ℚ) (s : LoopState) (i : Nat) :
    (ndviStep red nir s i).ndvi.length = s.ndvi.length + 1 := by
  unfold ndviStep
  dsimp only
  split <;> simp

lemma ndviIter_ndvi_length (red nir : List ℚ) : ∀ j : Nat,
    (ndviIter red nir j).ndvi.length = j
  | 0 => rfl
  | Nat.succ j => by
    rw [ndviIter, ndviStep_ndvi_length, ndviIter_ndvi_length red nir j]

lemma ndviStep_ndvi_append (red nir : List ℚ) (s : LoopState) (i : Nat) :
    ∃ x : JsNum, (ndviStep red nir s i).ndvi = s.ndvi ++ [x] := by
  unfold ndviStep
  dsimp only
  split
  · exact ⟨_, rfl⟩
  · exact ⟨_, rfl⟩

lemma ndviIter_ndvi_prefix (red nir : List ℚ) {i j : Nat} (h : i ≤ j) :
    (ndviIter red nir i).ndvi <+: (ndviIter red nir j).ndvi := by
  induction j with
  | zero => cases Nat.le_zero.mp h; exact List.prefix_refl _
  | succ j ih =>
    rcases eq_or_lt_of_le h with rfl | h'
    · exact List.prefix_refl _
    · obtain ⟨x, hx⟩ := ndviStep_ndvi_append red nir (ndviIter red nir j) j
      refine (ih (Nat.lt_succ_iff.mp h')).trans ?_
      rw [ndviIter, hx]
      exact List.prefix_append _ _

lemma ndviIter_getElem (red nir : List ℚ) {i j : Nat} (h : i < j) :
    (ndviIter red nir j).ndvi[i]? = (ndviIter red nir (i + 1)).ndvi[i]? := by
  obtain ⟨t, ht⟩ := ndviIter_ndvi_prefix red nir (Nat.succ_le_of_lt h)
  rw [← ht, List.getElem?_append_left]
  rw [ndviIter_ndvi_length]
  exact Nat.lt_succ_self i

lemma toFixed4_zero : (JsNum.num 0).toFixed4 = "0.0000" := by
  have hfl : (⌊|(0:ℚ)| * 10000 + 1/2⌋ : ℤ) = 0 := by
    rw [Int.floor_eq_iff]
    constructor <;> push_cast <;> norm_num
  rw [JsNum.toFixed4, hfl]
  norm_num [pad4]
  decide

lemma toFixed4_half : (JsNum.num (1/2)).toFixed4 = "0.5000" := by
  have hfl : (⌊|(1:ℚ)/2| * 10000 + 1/2⌋ : ℤ) = 5000 := by
    have habs : |(1:ℚ)/2| = 1/2 := abs_of_nonneg (by norm_num)
    rw [habs, Int.floor_eq_iff]
    constructor <;> push_cast <;> norm_num
  rw [JsNum.toFixed4, hfl]
  norm_num [pad4]
  decide

lemma jsAdd_comm (a b : JsNum) : a.add b = b.add a := by
  cases a <;> cases b <;> simp [JsNum.add, add_comm]

lemma negJs_add (a b : JsNum) : negJs (a.add b) = (negJs a).add (negJs b) := by
  cases a <;> cases b <;> simp [JsNum.add, negJs, neg_add] <;> ring

lemma swap_val (a b : JsNum) :
    (b.sub a).div (a.add b) = negJs ((a.sub b).div (a.add b)) := by
  cases a with
  | nan => cases b <;> simp [JsNum.sub, JsNum.add, JsNum.div, negJs]
  | num x =>
    cases b with
    | nan => simp [JsNum.sub, JsNum.add, JsNum.div, negJs]
    | num y =>
      simp only [JsNum.sub, JsNum.add, JsNum.div]
      by_cases h : x + y = 0
      · simp [h, negJs]
      · simp [h, negJs, ← neg_div, neg_sub]

lemma ndviStep_swap (red nir : List ℚ) (s : LoopState) (i : Nat) :
    ndviStep nir red ⟨s.ndvi.map negJs, negJs s.sum, s.count⟩ i
      = ⟨(ndviStep red nir s i).ndvi.map negJs, negJs (ndviStep red nir s i).sum,
         (ndviStep red nir s i).count⟩ := by
  unfold ndviStep
  dsimp only
  rw [jsAdd_comm (bandGet red i) (bandGet nir i)]
  by_cases h : ((bandGet nir i).add (bandGet red i)).strictNeqZero
  · simp only [h, if_true, swap_val, List.map_append, List.map_cons, List.map_nil, negJs_add]
  · simp only [Bool.not_eq_true] at h
    simp only [h, Bool.false_eq_true, if_false, List.map_append, List.map_cons, List.map_nil]
    have h0 : negJs (JsNum.num 0) = JsNum.num 0 := by simp [negJs]
    rw [h0]

lemma ndviIter_swap (red nir : List ℚ) : ∀ j : Nat,
    ndviIter nir red j
      = ⟨(ndviIter red nir j).ndvi.map negJs, negJs (ndviIter red nir j).sum,
         (ndviIter red nir j).count⟩
  | 0 => by simp [ndviIter, negJs, neg_zero]
  | Nat.succ j => by
    rw [ndviIter, ndviIter, ndviIter_swap red nir j, ndviStep_swap]

lemma routeNdviIter_eq (red nir : List ℚ) : ∀ j : Nat,
    routeNdviIter red nir j = ndviIter red nir j
  | 0 => rfl
  | Nat.succ j => by
    rw [routeNdviIter, ndviIter, routeNdviIter_eq red nir j]
    rfl

/-- C4: for every input, the returned sample is a prefix of the full per-pixel
output and its length is `min 100 n` where `n = min red.length maxPixels` is the
number of pixels processed; in particular it never exceeds 100 elements and
equals the processed pixel count when fewer than 100 pixels were processed. -/
theorem c4_sample_prefix_bound (red nir : List ℚ) :
    (calculateNdvi red nir).sample = (ndviLoop red nir).ndvi.take 100
    ∧ (calculateNdvi red nir).sample <+: (ndviLoop red nir).ndvi
    ∧ (calculateNdvi red nir).sample.length = min 100 (ndviLoop red nir).ndvi.length
    ∧ (calculateNdvi red nir).sample.length = min 100 (min red.length maxPixels) := by
  refine ⟨rfl, List.take_prefix _ _, ?_, ?_⟩
  · simp [calculateNdvi, List.length_take]
  · simp [calculateNdvi, List.length_take, ndviLoop, ndviIter_ndvi_length]

/-- C5: for every pixel whose red and nir reflectances are non-negative with a
nonzero denominator, the reducer pushes exactly the value
`(nir - red) / (nir + red)`, and that value lies in the closed interval [-1, 1]. -/
theorem c5_ndvi_range (red nir : List ℚ) (s : LoopState) (i : Nat) (r v : ℚ)
    (hr : red[i]? = some r) (hv : nir[i]? = some v)
    (h0r : 0 ≤ r) (h0v : 0 ≤ v) (hd : v + r ≠ 0) :
    ∃ q : ℚ, q = (v - r) / (v + r)
      ∧ ndviStep red nir s i
          = ⟨s.ndvi ++ [JsNum.num q], s.sum.add (JsNum.num q), s.count + 1⟩
      ∧ -1 ≤ q ∧ q ≤ 1 := by
  have hpos : 0 < v + r := lt_of_le_of_ne (add_nonneg h0v h0r) (Ne.symm hd)
  refine ⟨(v - r) / (v + r), rfl, ?_, ?_, ?_⟩
  · unfold ndviStep
    dsimp only
    rw [bandGet_eq_num hr, bandGet_eq_num hv]
    simp [JsNum.add, JsNum.sub, JsNum.div, JsNum.strictNeqZero, hd]
  · rw [le_div_iff₀ hpos]
    linarith
  · rw [div_le_one hpos]
    linarith

/-- C5 witness: the range invariant applied to the single concrete pixel
`red = 100`, `nir = 300`. -/
theorem c5_ndvi_range_witness :
    (([100] : List ℚ)[0]? = some 100 ∧ (([300] : List ℚ))[0]? = some 300
      ∧ (0:ℚ) ≤ 100 ∧ (0:ℚ) ≤ 300 ∧ (300:ℚ) + 100 ≠ 0)
    ∧ (∃ q : ℚ, q = (300 - 100) / (300 + 100)
      ∧ ndviStep [100] [300] ⟨[], JsNum.num 0, 0⟩ 0
          = ⟨[] ++ [JsNum.num q], (JsNum.num 0).add (JsNum.num q), 0 + 1⟩
      ∧ -1 ≤ q ∧ q ≤ 1) :=
  ⟨⟨rfl, rfl, by norm_num, by norm_num, by norm_num⟩,
    c5_ndvi_range [100] [300] ⟨[], JsNum.num 0, 0⟩ 0 100 300 rfl rfl
      (by norm_num) (by norm_num) (by norm_num)⟩

/-- C6: whenever both bands have at least 1,000,000 entries, the reducer
processes exactly `maxPixels = 1,000,000` pixels. -/
theorem c6_cap_enforced (red nir : List ℚ)
    (hred : 1000000 ≤ red.length) (hnir : 1000000 ≤ nir.length) :
    (ndviLoop red nir).ndvi.length = 1000000
    ∧ ndviLoop red nir = ndviIter red nir maxPixels := by
  have hmin : min red.length maxPixels = maxPixels := min_eq_right hred
  constructor
  · rw [ndviLoop, hmin, ndviIter_ndvi_length]
    rfl
  · rw [ndviLoop, hmin]

/-- C6 witness: the cap applied to two concrete bands of 2,000,000 pixels each. -/
theorem c6_cap_enforced_witness :
    (1000000 ≤ (List.replicate 2000000 (0:ℚ)).length
      ∧ 1000000 ≤ (List.replicate 2000000 (1:ℚ)).length)
    ∧ ((ndviLoop (List.replicate 2000000 (0:ℚ)) (List.replicate 2000000 (1:ℚ))).ndvi.length
          = 1000000
      ∧ ndviLoop (List.replicate 2000000 (0:ℚ)) (List.replicate 2000000 (1:ℚ))
          = ndviIter (List.replicate 2000000 (0:ℚ)) (List.replicate 2000000 (1:ℚ)) maxPixels) :=
  ⟨⟨by rw [List.length_replicate]; decide, by rw [List.length_replicate]; decide⟩,
    c6_cap_enforced (List.replicate 2000000 (0:ℚ)) (List.replicate 2000000 (1:ℚ))
      (by rw [List.length_replicate]; decide) (by rw [List.length_replicate]; decide)⟩

/-- C8: the inline route-handler reducer and the service-module reducer compute
identical results — the same loop state, the same formatted mean, and the same
sample — on every pair of input rasters. -/
theorem c8_duplicated_reducers_agree (red nir : List ℚ) :
    routeNdviLoop red nir = ndviLoop red nir
    ∧ (routeHandler red nir).meanNdvi = (calculateNdvi red nir).meanNdvi
    ∧ (routeHandler red nir).sample = (calculateNdvi red nir).sample := by
  have h : routeNdviLoop red nir = ndviLoop red nir := by
    rw [routeNdviLoop, ndviLoop, routeNdviIter_eq]
  refine ⟨h, ?_, ?_⟩ <;> simp only [routeHandler, calculateNdvi, h]

/-- C9: the reduction is a pure, deterministic function of the two input bands:
equal inputs yield equal loop states, equal service results and equal route
responses. -/
theorem c9_pure_deterministic (redA nirA redB nirB : List ℚ)
    (hred : redA = redB) (hnir : nirA = nirB) :
    calculateNdvi redA nirA = calculateNdvi redB nirB
    ∧ ndviLoop redA nirA = ndviLoop redB nirB
    ∧ routeHandler redA nirA = routeHandler redB nirB := by
  subst hred
  subst hnir
  exact ⟨rfl, rfl, rfl⟩

/-- C9 witness: determinism applied at a concrete pair of bands. -/
theorem c9_pure_deterministic_witness :
    (([3, 7] : List ℚ) = [3, 7] ∧ ([5, 9] : List ℚ) = [5, 9])
    ∧ (calculateNdvi [3, 7] [5, 9] = calculateNdvi [3, 7] [5, 9]
      ∧ ndviLoop [3, 7] [5, 9] = ndviLoop [3, 7] [5, 9]
      ∧ routeHandler [3, 7] [5, 9] = routeHandler [3, 7] [5, 9]) :=
  ⟨⟨rfl, rfl⟩, c9_pure_deterministic [3, 7] [5, 9] [3, 7] [5, 9] rfl rfl⟩

/-- C10: for equal-length bands, swapping red and nir negates every per-pixel
value (valid pixels exactly, zero-denominator placeholders fixed since `-0 = 0`),
negates the running sum, and leaves the valid-pixel count unchanged. -/
theorem c10_swap_negates (red nir : List ℚ) (h : red.length = nir.length) :
    (ndviLoop nir red).ndvi = (ndviLoop red nir).ndvi.map negJs
    ∧ (ndviLoop nir red).sum = negJs (ndviLoop red nir).sum
    ∧ (ndviLoop nir red).count = (ndviLoop red nir).count := by
  simp only [ndviLoop, ← h, ndviIter_swap red nir]
  exact ⟨trivial, trivial, trivial⟩

/-- C10 witness: band swapping applied at a concrete pair of equal-length bands. -/
theorem c10_swap_negates_witness :
    (([1, 2] : List ℚ).length = ([3, 4] : List ℚ).length)
    ∧ ((ndviLoop [3, 4] [1, 2]).ndvi = (ndviLoop [1, 2] [3, 4]).ndvi.map negJs
      ∧ (ndviLoop [3, 4] [1, 2]).sum = negJs (ndviLoop [1, 2] [3, 4]).sum
      ∧ (ndviLoop [3, 4] [1, 2]).count = (ndviLoop [1, 2] [3, 4]).count) :=
  ⟨rfl, c10_swap_negates [1, 2] [3, 4] rfl⟩

/-- C1: a pixel whose denominator `nir_i + red_i` is exactly zero contributes
the value 0 to the full per-pixel output sequence but is excluded from both the
running sum and the valid-pixel count; in particular, for `red=[0,10]`,
`nir=[0,10]`, the per-pixel output is `[0, ndvi of pixel 1]` and the formatted
mean equals the formatted NDVI of pixel 1 alone. -/
theorem c1_zero_denominator_excluded (red nir : List ℚ) (i : Nat) (r v : ℚ)
    (hi : i < min red.length maxPixels)
    (hr : red[i]? = some r) (hv : nir[i]? = some v) (hz : v + r = 0) :
    ((ndviLoop red nir).ndvi[i]? = some (JsNum.num 0)
      ∧ ndviIter red nir (i + 1)
          = ⟨(ndviIter red nir i).ndvi ++ [JsNum.num 0],
             (ndviIter red nir i).sum, (ndviIter red nir i).count⟩)
    ∧ ((ndviLoop [0, 10] [0, 10]).ndvi = [JsNum.num 0, JsNum.num ((10 - 10) / (10 + 10))]
      ∧ (ndviLoop [0, 10] [0, 10]).count = 1
      ∧ (calculateNdvi [0, 10] [0, 10]).meanNdvi
          = ((JsNum.sub (JsNum.num 10) (JsNum.num 10)).div
              (JsNum.add (JsNum.num 10) (JsNum.num 10))).toFixed4) := by
  have hstep : ndviIter red nir (i + 1)
      = ⟨(ndviIter red nir i).ndvi ++ [JsNum.num 0],
         (ndviIter red nir i).sum, (ndviIter red nir i).count⟩ := by
    rw [ndviIter]
    unfold ndviStep
    dsimp only
    rw [bandGet_eq_num hr, bandGet_eq_num hv]
    simp [JsNum.add, hz, JsNum.strictNeqZero]
  refine ⟨⟨?_, hstep⟩, ?_, ?_, ?_⟩
  · rw [ndviLoop, ndviIter_getElem red nir hi, hstep]
    have hcat := List.getElem?_concat_length (ndviIter red nir i).ndvi (JsNum.num 0)
    rw [ndviIter_ndvi_length red nir i] at hcat
    exact hcat
  · norm_num [ndviLoop, maxPixels, ndviIter, ndviStep, bandGet, JsNum.add, JsNum.sub,
      JsNum.div, JsNum.strictNeqZero]
  · norm_num [ndviLoop, maxPixels, ndviIter, ndviStep, bandGet, JsNum.add, JsNum.sub,
      JsNum.div, JsNum.strictNeqZero]
  · norm_num [calculateNdvi, ndviLoop, maxPixels, ndviIter, ndviStep, bandGet, JsNum.add,
      JsNum.sub, JsNum.div, JsNum.strictNeqZero, toFixed4_zero]

/-- C1 witness: the zero-denominator rule applied at pixel 0 of
`red=[0,10]`, `nir=[0,10]`. -/
theorem c1_zero_denominator_excluded_witness :
    (0 < min ([0, 10] : List ℚ).length maxPixels
      ∧ (([0, 10] : List ℚ))[0]? = some 0
      ∧ (([0, 10] : List ℚ))[0]? = some 0
      ∧ (0 : ℚ) + 0 = 0)
    ∧ (((ndviLoop [0, 10] [0, 10]).ndvi[0]? = some (JsNum.num 0)
      ∧ ndviIter [0, 10] [0, 10] (0 + 1)
          = ⟨(ndviIter [0, 10] [0, 10] 0).ndvi ++ [JsNum.num 0],
             (ndviIter [0, 10] [0, 10] 0).sum, (ndviIter [0, 10] [0, 10] 0).count⟩)
    ∧ ((ndviLoop [0, 10] [0, 10]).ndvi = [JsNum.num 0, JsNum.num ((10 - 10) / (10 + 10))]
      ∧ (ndviLoop [0, 10] [0, 10]).count = 1
      ∧ (calculateNdvi [0, 10] [0, 10]).meanNdvi
          = ((JsNum.sub (JsNum.num 10) (JsNum.num 10)).div
              (JsNum.add (JsNum.num 10) (JsNum.num 10))).toFixed4)) :=
  ⟨⟨by decide, rfl, rfl, by norm_num⟩,
    c1_zero_denominator_excluded [0, 10] [0, 10] 0 0 0 (by decide) rfl rfl (by norm_num)⟩

/-- C2 (code behavior): with `red` of length 5 and `nir` of length 3, the loop
bound `min(redRaster.length, maxPixels)` ignores the nir length, so the reducer
processes 5 pixels, reads `nirRaster[3]` and `nirRaster[4]` out of bounds,
appends NaN for those pixels, poisons the running sum, and returns the mean
`"NaN"` — while `min(len(red), len(nir), maxPixels)` would be 3. -/
theorem c2_mismatched_bands_not_truncated :
    (ndviLoop [1, 2, 3, 4, 5] [3, 6, 9]).ndvi.length = 5
    ∧ (ndviLoop [1, 2, 3, 4, 5] [3, 6, 9]).count = 5
    ∧ calculateNdvi [1, 2, 3, 4, 5] [3, 6, 9]
        = ⟨"NaN", [JsNum.num (1/2), JsNum.num (1/2), JsNum.num (1/2), JsNum.nan, JsNum.nan]⟩
    ∧ min ([1, 2, 3, 4, 5] : List ℚ).length (min ([3, 6, 9] : List ℚ).length maxPixels) = 3 := by
  refine ⟨?_, ?_, ?_, by decide⟩ <;>
    norm_num [calculateNdvi, ndviLoop, maxPixels, ndviIter, ndviStep, bandGet, JsNum.add,
      JsNum.sub, JsNum.div, JsNum.strictNeqZero, JsNum.toFixed4]

/-- C3 (code behavior): on the all-zero bands `red=[0,0]`, `nir=[0,0]` the
valid-pixel count is 0, `0/0` evaluates to NaN, and both reducers return the
string `"NaN"` as the formatted mean — the route handler inside an otherwise
well-formed 200 success response — rather than signalling an explicit
no-valid-pixels error. -/
theorem c3_nan_mean_in_200_response :
    (ndviLoop [0, 0] [0, 0]).count = 0
    ∧ calculateNdvi [0, 0] [0, 0] = ⟨"NaN", [JsNum.num 0, JsNum.num 0]⟩
    ∧ routeHandler [0, 0] [0, 0] = ⟨200, "NaN", [JsNum.num 0, JsNum.num 0]⟩ := by
  refine ⟨?_, ?_, ?_⟩ <;>
    norm_num [calculateNdvi, ndviLoop, routeHandler, routeNdviLoop, maxPixels, ndviIter,
      ndviStep, routeNdviIter, routeNdviStep, bandGet, JsNum.add, JsNum.sub, JsNum.div,
      JsNum.strictNeqZero, JsNum.toFixed4]

/-- C7: for `red=[100]`, `nir=[300]` the single per-pixel NDVI is
`(300-100)/(300+100) = 1/2` exactly and the formatted mean is `"0.5000"`. -/
theorem c7_known_value_round_trip :
    (ndviLoop [100] [300]).ndvi = [JsNum.num ((300 - 100) / (300 + 100))]
    ∧ ((300 : ℚ) - 100) / (300 + 100) = 1 / 2
    ∧ calculateNdvi [100] [300] = ⟨"0.5000", [JsNum.num (1 / 2)]⟩ := by
  refine ⟨?_, by norm_num, ?_⟩ <;>
    norm_num [calculateNdvi, ndviLoop, maxPixels, ndviIter, ndviStep, bandGet, JsNum.add,
      JsNum.sub, JsNum.div, JsNum.strictNeqZero, toFixed4_half]
